import Mathlib

/-!
# Verification of the sandbox orchestrator (`src/ui/src/sandbox.rs`)

A shallow embedding of the Rust playground's sandbox module and proofs of
the specification's claims about it.

The module stages untrusted source into a temporary workspace, invokes a
docker-wrapped toolchain command, and translates the raw process result
into a typed response.  The pure parts (command construction, the enum
mappings) are translated directly; the effectful parts (file writes, the
external process, file reads) are embedded by passing an explicit `World`
describing the outcome of each external interaction.
-/

namespace Playground

/-- A captured byte vector (Rust `Vec<u8>` / file contents), abstracted by
UTF-8 validity: `text s` stands for a byte vector that is valid UTF-8 and
decodes to `s`; `invalid` stands for any byte vector that is not valid
UTF-8.  This is the exact granularity at which the source distinguishes
byte vectors (`String::from_utf8` / `read_to_string` succeed on the former
and fail on the latter). -/
inductive ByteStream where
  | text (s : String)
  | invalid
deriving DecidableEq

/-- The module's error enum (`quick_error!` block, sandbox.rs lines 10-43).
The wrapped `io::Error` / `FromUtf8Error` payloads carry no information the
claims depend on and are dropped. -/
inductive Error where
  | UnableToCreateTempDir
  | UnableToCreateSourceFile
  | UnableToExecuteCompiler
  | UnableToReadOutput
  | OutputNotUtf8
  | OutputMissing
deriving DecidableEq

/-- `CompileTarget` (sandbox.rs lines 254-258). -/
inductive CompileTarget where
  | Assembly
  | LlvmIr
deriving DecidableEq

/-- `Channel` (sandbox.rs lines 260-265). -/
inductive Channel where
  | Stable
  | Beta
  | Nightly
deriving DecidableEq

/-- `Mode` (sandbox.rs lines 279-283). -/
inductive Mode where
  | Debug
  | Release
deriving DecidableEq

/-- `Channel::container_name` (sandbox.rs lines 267-277). -/
def Channel.container_name : Channel → String
  | .Stable => "rust-stable"
  | .Beta => "rust-beta"
  | .Nightly => "rust-nightly"

/-- `CompileRequest` (sandbox.rs lines 285-292). -/
structure CompileRequest where
  target : CompileTarget
  channel : Channel
  mode : Mode
  tests : Bool
  code : String

/-- `CompileResponse` (sandbox.rs lines 294-300). -/
structure CompileResponse where
  success : Bool
  code : String
  stdout : String
  stderr : String
deriving DecidableEq

/-- `ExecuteRequest` (sandbox.rs lines 302-308). -/
structure ExecuteRequest where
  channel : Channel
  mode : Mode
  tests : Bool
  code : String

/-- `ExecuteResponse` (sandbox.rs lines 310-315). -/
structure ExecuteResponse where
  success : Bool
  stdout : String
  stderr : String
deriving DecidableEq

/-- `FormatRequest` (sandbox.rs lines 317-320). -/
structure FormatRequest where
  code : String

/-- `FormatResponse` (sandbox.rs lines 322-328). -/
structure FormatResponse where
  success : Bool
  code : String
  stdout : String
  stderr : String
deriving DecidableEq

/-- `ClippyRequest` (sandbox.rs lines 330-333). -/
structure ClippyRequest where
  code : String

/-- `ClippyResponse` (sandbox.rs lines 335-340). -/
structure ClippyResponse where
  success : Bool
  stdout : String
  stderr : String
deriving DecidableEq

/-- The `Sandbox` struct (sandbox.rs lines 47-50): the two workspace paths
held by the `Temp` guards, as plain path strings. -/
structure Sandbox where
  input_file : String
  output_dir : String

/-- `vec_to_str` (sandbox.rs lines 52-54): decode captured bytes, failing
with `OutputNotUtf8` when they are not valid UTF-8. -/
def vec_to_str : ByteStream → Except Error String
  | .text s => Except.ok s
  | .invalid => Except.error Error.OutputNotUtf8

/-- What the filesystem holds at a path when the orchestrator reads it,
at the granularity the source's `read` distinguishes: `notFound` is an
open failing with `ErrorKind::NotFound`; `otherIoError` is an open or read
failing with any other I/O error; `file content` is a readable file with
the given bytes. -/
inductive FsEntry where
  | notFound
  | otherIoError
  | file (content : ByteStream)
deriving DecidableEq

/-- The result of `std::process::Output` as the source consumes it:
exit-status success, captured stdout bytes, captured stderr bytes. -/
structure ProcessOutput where
  status_success : Bool
  stdout : ByteStream
  stderr : ByteStream
deriving DecidableEq

/-- The outcome of every external interaction one orchestrator call makes:
whether writing the source file succeeds, what `Command::output()` yields
for a given argument vector (`none` = the process cannot be started), and
what the filesystem holds at each path after the process has run. -/
structure World where
  write_ok : Bool
  run : List String → Option ProcessOutput
  fs : String → FsEntry

/-- `read` (sandbox.rs lines 241-252).  `File::open` failing with
`NotFound` yields `Ok(None)`; any other open error yields
`UnableToReadOutput`; `read_to_string` on bytes that are not valid UTF-8
fails with an `InvalidData` I/O error, which line 250 also maps to
`UnableToReadOutput` (not to `OutputNotUtf8`). -/
def read (fs : String → FsEntry) (path : String) : Except Error (Option String) :=
  match fs path with
  | .notFound => Except.ok none
  | .otherIoError => Except.error Error.UnableToReadOutput
  | .file (.text s) => Except.ok (some s)
  | .file .invalid => Except.error Error.UnableToReadOutput

/-- `Sandbox::docker_command` (sandbox.rs lines 182-210).  The two
`--volume` specs carry no `:ro` suffix, so docker mounts them read-write.
The compile-time `cfg!(feature = "fork-bomb-prevention")` flag is the
explicit parameter `fbp`. -/
def Sandbox.docker_command (s : Sandbox) (fbp : Bool) : List String :=
  ["docker", "run", "--rm",
   "--volume", s.input_file ++ ":" ++ "/playground/src/main.rs",
   "--volume", s.output_dir ++ ":" ++ "/playground-result",
   "--workdir", "/playground",
   "--net", "none",
   "--memory", "256m",
   "--memory-swap", "320m",
   "--env", "PLAYGROUND_TIMEOUT=10",
   "--env", "RUST_BACKTRACE=1"]
  ++ (if fbp then ["--pids-limit", "512"] else [])

/-- `build_execution_command` (sandbox.rs lines 213-239). -/
def build_execution_command (target : Option CompileTarget) (mode : Mode)
    (tests : Bool) : List String :=
  let cmd := ["cargo"]
  let cmd := cmd ++ [match target, tests with
    | some _, _ => "rustc"
    | none, true => "test"
    | none, false => "run"]
  let cmd := if mode = Mode.Release then cmd ++ ["--release"] else cmd
  match target with
  | some t =>
    let cmd := cmd ++ ["--", "-o", "/playground-result/compilation"]
    (match t with
     | CompileTarget.Assembly => cmd ++ ["--emit=asm"]
     | CompileTarget.LlvmIr => cmd ++ ["--emit=llvm-ir"])
  | none => cmd

/-- `Sandbox::compile_command` (sandbox.rs lines 138-148). -/
def Sandbox.compile_command (s : Sandbox) (fbp : Bool) (target : CompileTarget)
    (channel : Channel) (mode : Mode) (tests : Bool) : List String :=
  s.docker_command fbp ++ channel.container_name ::
    build_execution_command (some target) mode tests

/-- `Sandbox::execute_command` (sandbox.rs lines 150-160). -/
def Sandbox.execute_command (s : Sandbox) (fbp : Bool) (channel : Channel)
    (mode : Mode) (tests : Bool) : List String :=
  s.docker_command fbp ++ channel.container_name ::
    build_execution_command none mode tests

/-- `Sandbox::format_command` (sandbox.rs lines 162-170). -/
def Sandbox.format_command (s : Sandbox) (fbp : Bool) : List String :=
  s.docker_command fbp ++ ["rustfmt", "--write-mode", "overwrite", "src/main.rs"]

/-- `Sandbox::clippy_command` (sandbox.rs lines 172-180). -/
def Sandbox.clippy_command (s : Sandbox) (fbp : Bool) : List String :=
  s.docker_command fbp ++ ["clippy", "cargo", "clippy"]

/-- The expected artifact filename pushed onto the output directory path,
mirroring the `match req.target` at sandbox.rs lines 72-75. -/
def artifact_filename : CompileTarget → String
  | .Assembly => "compilation.s"
  | .LlvmIr => "compilation.ll"

/-- `Sandbox::write_source_code` (sandbox.rs lines 125-136): both the
create and the write failure map to `UnableToCreateSourceFile`. -/
def Sandbox.write_source_code (_s : Sandbox) (w : World) (_code : String) :
    Except Error Unit :=
  if w.write_ok then Except.ok () else Except.error Error.UnableToCreateSourceFile

/-- `Sandbox::compile` (sandbox.rs lines 64-83).  The explicit matches are
the expansion of each `try!`; the response fields are evaluated in source
order (artifact read, then stdout, then stderr). -/
def Sandbox.compile (s : Sandbox) (fbp : Bool) (w : World)
    (req : CompileRequest) : Except Error CompileResponse :=
  match s.write_source_code w req.code with
  | .error e => Except.error e
  | .ok _ =>
    match w.run (s.compile_command fbp req.target req.channel req.mode req.tests) with
    | none => Except.error Error.UnableToExecuteCompiler
    | some output =>
      match read w.fs (s.output_dir ++ "/" ++ artifact_filename req.target) with
      | .error e => Except.error e
      | .ok code =>
        match vec_to_str output.stdout with
        | .error e => Except.error e
        | .ok stdout =>
          match vec_to_str output.stderr with
          | .error e => Except.error e
          | .ok stderr =>
            Except.ok { success := output.status_success, code := code.getD "",
                        stdout := stdout, stderr := stderr }

/-- `Sandbox::execute` (sandbox.rs lines 85-96). -/
def Sandbox.execute (s : Sandbox) (fbp : Bool) (w : World)
    (req : ExecuteRequest) : Except Error ExecuteResponse :=
  match s.write_source_code w req.code with
  | .error e => Except.error e
  | .ok _ =>
    match w.run (s.execute_command fbp req.channel req.mode req.tests) with
    | none => Except.error Error.UnableToExecuteCompiler
    | some output =>
      match vec_to_str output.stdout with
      | .error e => Except.error e
      | .ok stdout =>
        match vec_to_str output.stderr with
        | .error e => Except.error e
        | .ok stderr =>
          Except.ok { success := output.status_success,
                      stdout := stdout, stderr := stderr }

/-- `Sandbox::format` (sandbox.rs lines 98-110).  The artifact is read
back from the workspace's own input file; `Ok(None)` (file absent) is
turned into `OutputMissing` by the `ok_or` on line 106. -/
def Sandbox.format (s : Sandbox) (fbp : Bool) (w : World)
    (req : FormatRequest) : Except Error FormatResponse :=
  match s.write_source_code w req.code with
  | .error e => Except.error e
  | .ok _ =>
    match w.run (s.format_command fbp) with
    | none => Except.error Error.UnableToExecuteCompiler
    | some output =>
      match read w.fs s.input_file with
      | .error e => Except.error e
      | .ok none => Except.error Error.OutputMissing
      | .ok (some code) =>
        match vec_to_str output.stdout with
        | .error e => Except.error e
        | .ok stdout =>
          match vec_to_str output.stderr with
          | .error e => Except.error e
          | .ok stderr =>
            Except.ok { success := output.status_success, code := code,
                        stdout := stdout, stderr := stderr }

/-- `Sandbox::clippy` (sandbox.rs lines 112-123). -/
def Sandbox.clippy (s : Sandbox) (fbp : Bool) (w : World)
    (req : ClippyRequest) : Except Error ClippyResponse :=
  match s.write_source_code w req.code with
  | .error e => Except.error e
  | .ok _ =>
    match w.run (s.clippy_command fbp) with
    | none => Except.error Error.UnableToExecuteCompiler
    | some output =>
      match vec_to_str output.stdout with
      | .error e => Except.error e
      | .ok stdout =>
        match vec_to_str output.stderr with
        | .error e => Except.error e
        | .ok stderr =>
          Except.ok { success := output.status_success,
                      stdout := stdout, stderr := stderr }

end Playground

namespace Playground

/-- Whether an `Except` result is a success. -/
def is_ok {α : Type} : Except Error α → Bool
  | .ok _ => true
  | .error _ => false

/-! ## Helper lemmas -/

lemma ne_of_longer (a b c : String) (h : c.length < b.length) : c ≠ a ++ b := by
  intro he
  have hl := congrArg String.length he
  rw [String.length_append] at hl
  omega

lemma seg_extend {l₁ front : List String} (tail : List String)
    (h : l₁ <:+: front) : l₁ <:+: front ++ tail := by
  obtain ⟨u, v, rfl⟩ := h
  exact ⟨u, v ++ tail, by simp⟩

lemma pids_not_mem (s : Sandbox) : "--pids-limit" ∉ s.docker_command false := by
  intro h
  simp only [Sandbox.docker_command, if_neg Bool.false_ne_true, List.append_nil,
    List.mem_cons, List.not_mem_nil, or_false] at h
  rcases h with h|h|h|h|h|h|h|h|h|h|h|h|h|h|h|h|h|h|h
  all_goals first
    | exact absurd h (by decide)
    | exact ne_of_longer (s.input_file ++ ":") "/playground/src/main.rs" "--pids-limit"
        (by decide) h
    | exact ne_of_longer (s.output_dir ++ ":") "/playground-result" "--pids-limit"
        (by decide) h

end Playground

namespace Playground

lemma read_ne_utec (fs : String → FsEntry) (p : String) :
    read fs p ≠ Except.error Error.UnableToExecuteCompiler := by
  unfold read
  rcases hfs : fs p with _ | _ | c
  · simp
  · simp
  · cases c <;> simp

lemma read_ne_missing (fs : String → FsEntry) (p : String) :
    read fs p ≠ Except.error Error.OutputMissing := by
  unfold read
  rcases hfs : fs p with _ | _ | c
  · simp
  · simp
  · cases c <;> simp

lemma vec_to_str_ne_utec (b : ByteStream) :
    vec_to_str b ≠ Except.error Error.UnableToExecuteCompiler := by
  cases b <;> simp [vec_to_str]

lemma compile_eq (s : Sandbox) (fbp : Bool) (w : World) (req : CompileRequest)
    (o : ProcessOutput) (hw : w.write_ok = true)
    (hrun : w.run (s.compile_command fbp req.target req.channel req.mode req.tests)
      = some o) :
    s.compile fbp w req =
      match read w.fs (s.output_dir ++ "/" ++ artifact_filename req.target) with
      | .error e => Except.error e
      | .ok code =>
        match vec_to_str o.stdout with
        | .error e => Except.error e
        | .ok stdout =>
          match vec_to_str o.stderr with
          | .error e => Except.error e
          | .ok stderr =>
            Except.ok { success := o.status_success, code := code.getD "",
                        stdout := stdout, stderr := stderr } := by
  simp [Sandbox.compile, Sandbox.write_source_code, hw, hrun]

lemma execute_eq (s : Sandbox) (fbp : Bool) (w : World) (req : ExecuteRequest)
    (o : ProcessOutput) (hw : w.write_ok = true)
    (hrun : w.run (s.execute_command fbp req.channel req.mode req.tests) = some o) :
    s.execute fbp w req =
      match vec_to_str o.stdout with
      | .error e => Except.error e
      | .ok stdout =>
        match vec_to_str o.stderr with
        | .error e => Except.error e
        | .ok stderr =>
          Except.ok { success := o.status_success,
                      stdout := stdout, stderr := stderr } := by
  simp [Sandbox.execute, Sandbox.write_source_code, hw, hrun]

lemma format_eq (s : Sandbox) (fbp : Bool) (w : World) (req : FormatRequest)
    (o : ProcessOutput) (hw : w.write_ok = true)
    (hrun : w.run (s.format_command fbp) = some o) :
    s.format fbp w req =
      match read w.fs s.input_file with
      | .error e => Except.error e
      | .ok none => Except.error Error.OutputMissing
      | .ok (some code) =>
        match vec_to_str o.stdout with
        | .error e => Except.error e
        | .ok stdout =>
          match vec_to_str o.stderr with
          | .error e => Except.error e
          | .ok stderr =>
            Except.ok { success := o.status_success, code := code,
                        stdout := stdout, stderr := stderr } := by
  simp [Sandbox.format, Sandbox.write_source_code, hw, hrun]

lemma clippy_eq (s : Sandbox) (fbp : Bool) (w : World) (req : ClippyRequest)
    (o : ProcessOutput) (hw : w.write_ok = true)
    (hrun : w.run (s.clippy_command fbp) = some o) :
    s.clippy fbp w req =
      match vec_to_str o.stdout with
      | .error e => Except.error e
      | .ok stdout =>
        match vec_to_str o.stderr with
        | .error e => Except.error e
        | .ok stderr =>
          Except.ok { success := o.status_success,
                      stdout := stdout, stderr := stderr } := by
  simp [Sandbox.clippy, Sandbox.write_source_code, hw, hrun]

end Playground

namespace Playground

/-- C1: for every request of any operation, the docker wrapper command
contains a read-write mount of the workspace input file at the fixed
in-sandbox path `/playground/src/main.rs`, a read-write mount of the
workspace output directory at `/playground-result`, the network-disabling
flag `--net none`, the fixed working directory `/playground`, the memory
ceiling 256m and the strictly higher memory+swap ceiling 320m, the
wall-clock timeout passed as the environment variable
`PLAYGROUND_TIMEOUT=10`, and the process-count limit flag `--pids-limit`
exactly when the fork-bomb-prevention feature is enabled; the wrapper is a
common front of all four operations' commands. -/
theorem c1_isolation_wrapper_constraints (s : Sandbox) (fbp : Bool) :
    (["--volume", s.input_file ++ ":" ++ "/playground/src/main.rs"] <:+: s.docker_command fbp)
  ∧ (["--volume", s.output_dir ++ ":" ++ "/playground-result"] <:+: s.docker_command fbp)
  ∧ (["--net", "none"] <:+: s.docker_command fbp)
  ∧ (["--workdir", "/playground"] <:+: s.docker_command fbp)
  ∧ (["--memory", "256m"] <:+: s.docker_command fbp)
  ∧ (["--memory-swap", "320m"] <:+: s.docker_command fbp)
  ∧ (256 : Nat) < 320
  ∧ (["--env", "PLAYGROUND_TIMEOUT=10"] <:+: s.docker_command fbp)
  ∧ ("--pids-limit" ∈ s.docker_command fbp ↔ fbp = true)
  ∧ (fbp = true → ["--pids-limit", "512"] <:+: s.docker_command fbp)
  ∧ (∀ target channel mode tests,
      s.docker_command fbp <+: s.compile_command fbp target channel mode tests)
  ∧ (∀ channel mode tests,
      s.docker_command fbp <+: s.execute_command fbp channel mode tests)
  ∧ (s.docker_command fbp <+: s.format_command fbp)
  ∧ (s.docker_command fbp <+: s.clippy_command fbp) := by
  refine ⟨
    seg_extend _ ⟨["docker", "run", "--rm"],
      ["--volume", s.output_dir ++ ":" ++ "/playground-result",
       "--workdir", "/playground", "--net", "none", "--memory", "256m",
       "--memory-swap", "320m", "--env", "PLAYGROUND_TIMEOUT=10",
       "--env", "RUST_BACKTRACE=1"], rfl⟩,
    seg_extend _ ⟨["docker", "run", "--rm",
      "--volume", s.input_file ++ ":" ++ "/playground/src/main.rs"],
      ["--workdir", "/playground", "--net", "none", "--memory", "256m",
       "--memory-swap", "320m", "--env", "PLAYGROUND_TIMEOUT=10",
       "--env", "RUST_BACKTRACE=1"], rfl⟩,
    seg_extend _ ⟨["docker", "run", "--rm",
      "--volume", s.input_file ++ ":" ++ "/playground/src/main.rs",
      "--volume", s.output_dir ++ ":" ++ "/playground-result",
      "--workdir", "/playground"],
      ["--memory", "256m", "--memory-swap", "320m",
       "--env", "PLAYGROUND_TIMEOUT=10", "--env", "RUST_BACKTRACE=1"], rfl⟩,
    seg_extend _ ⟨["docker", "run", "--rm",
      "--volume", s.input_file ++ ":" ++ "/playground/src/main.rs",
      "--volume", s.output_dir ++ ":" ++ "/playground-result"],
      ["--net", "none", "--memory", "256m", "--memory-swap", "320m",
       "--env", "PLAYGROUND_TIMEOUT=10", "--env", "RUST_BACKTRACE=1"], rfl⟩,
    seg_extend _ ⟨["docker", "run", "--rm",
      "--volume", s.input_file ++ ":" ++ "/playground/src/main.rs",
      "--volume", s.output_dir ++ ":" ++ "/playground-result",
      "--workdir", "/playground", "--net", "none"],
      ["--memory-swap", "320m", "--env", "PLAYGROUND_TIMEOUT=10",
       "--env", "RUST_BACKTRACE=1"], rfl⟩,
    seg_extend _ ⟨["docker", "run", "--rm",
      "--volume", s.input_file ++ ":" ++ "/playground/src/main.rs",
      "--volume", s.output_dir ++ ":" ++ "/playground-result",
      "--workdir", "/playground", "--net", "none", "--memory", "256m"],
      ["--env", "PLAYGROUND_TIMEOUT=10", "--env", "RUST_BACKTRACE=1"], rfl⟩,
    by decide,
    seg_extend _ ⟨["docker", "run", "--rm",
      "--volume", s.input_file ++ ":" ++ "/playground/src/main.rs",
      "--volume", s.output_dir ++ ":" ++ "/playground-result",
      "--workdir", "/playground", "--net", "none", "--memory", "256m",
      "--memory-swap", "320m"],
      ["--env", "RUST_BACKTRACE=1"], rfl⟩,
    ?_, ?_,
    fun target channel mode tests =>
      ⟨channel.container_name :: build_execution_command (some target) mode tests, rfl⟩,
    fun channel mode tests =>
      ⟨channel.container_name :: build_execution_command none mode tests, rfl⟩,
    ⟨["rustfmt", "--write-mode", "overwrite", "src/main.rs"], rfl⟩,
    ⟨["clippy", "cargo", "clippy"], rfl⟩⟩
  · cases fbp
    · exact iff_of_false (pids_not_mem s) (by decide)
    · exact iff_of_true (List.mem_append.mpr (Or.inr (by decide))) rfl
  · intro h
    subst h
    exact ⟨s.docker_command false, [], by simp [Sandbox.docker_command]⟩

end Playground

namespace Playground

/-- C3: for every compile request the emission flag and the expected
artifact filename are in lockstep with the `CompileTarget`: the Assembly
target puts `--emit=asm` in the command and expects `compilation.s`, the
LlvmIr target puts `--emit=llvm-ir` in the command and expects the
distinct filename `compilation.ll`; each emission flag appears exactly for
its own target, and in both cases the command directs output to
`/playground-result/compilation`, inside the mount of the workspace output
directory at `/playground-result`. -/
theorem c3_target_emission_lockstep (s : Sandbox) (fbp : Bool)
    (channel : Channel) (mode : Mode) (tests : Bool) :
    ("--emit=asm" ∈ s.compile_command fbp CompileTarget.Assembly channel mode tests
      ∧ artifact_filename CompileTarget.Assembly = "compilation.s")
  ∧ ("--emit=llvm-ir" ∈ s.compile_command fbp CompileTarget.LlvmIr channel mode tests
      ∧ artifact_filename CompileTarget.LlvmIr = "compilation.ll")
  ∧ artifact_filename CompileTarget.Assembly ≠ artifact_filename CompileTarget.LlvmIr
  ∧ (∀ t, ("--emit=asm" ∈ build_execution_command (some t) mode tests
      ↔ t = CompileTarget.Assembly))
  ∧ (∀ t, ("--emit=llvm-ir" ∈ build_execution_command (some t) mode tests
      ↔ t = CompileTarget.LlvmIr))
  ∧ (∀ t, ["--", "-o", "/playground-result/compilation"] <:+:
      build_execution_command (some t) mode tests)
  ∧ (∀ t, ["--volume", s.output_dir ++ ":" ++ "/playground-result"] <:+:
      s.compile_command fbp t channel mode tests) := by
  refine ⟨⟨List.mem_append.mpr (Or.inr (List.mem_cons_of_mem _ ?_)), rfl⟩,
          ⟨List.mem_append.mpr (Or.inr (List.mem_cons_of_mem _ ?_)), rfl⟩,
          by decide, ?_, ?_, ?_, ?_⟩
  · cases mode <;> cases tests <;> decide
  · cases mode <;> cases tests <;> decide
  · intro t
    cases t <;> cases mode <;> cases tests <;> decide
  · intro t
    cases t <;> cases mode <;> cases tests <;> decide
  · intro t
    cases t <;> cases mode <;> cases tests <;> decide
  · intro t
    exact seg_extend _ (seg_extend _ ⟨["docker", "run", "--rm",
      "--volume", s.input_file ++ ":" ++ "/playground/src/main.rs"],
      ["--workdir", "/playground", "--net", "none", "--memory", "256m",
       "--memory-swap", "320m", "--env", "PLAYGROUND_TIMEOUT=10",
       "--env", "RUST_BACKTRACE=1"], rfl⟩)

/-- C7 (corrected claim): `Channel::container_name` is the fixed mapping
Stable to `rust-stable`, Beta to `rust-beta`, Nightly to `rust-nightly`,
and the compile and execute commands place exactly
`channel.container_name` in the image position right after the docker
wrapper; the format and clippy commands instead place the fixed
identifiers `rustfmt` and `clippy` there, independent of any channel. -/
theorem c7_channel_image_mapping (s : Sandbox) (fbp : Bool)
    (target : CompileTarget) (channel : Channel) (mode : Mode) (tests : Bool) :
    Channel.container_name Channel.Stable = "rust-stable"
  ∧ Channel.container_name Channel.Beta = "rust-beta"
  ∧ Channel.container_name Channel.Nightly = "rust-nightly"
  ∧ s.compile_command fbp target channel mode tests =
      s.docker_command fbp ++ channel.container_name ::
        build_execution_command (some target) mode tests
  ∧ s.execute_command fbp channel mode tests =
      s.docker_command fbp ++ channel.container_name ::
        build_execution_command none mode tests
  ∧ s.format_command fbp =
      s.docker_command fbp ++ "rustfmt" :: ["--write-mode", "overwrite", "src/main.rs"]
  ∧ s.clippy_command fbp = s.docker_command fbp ++ "clippy" :: ["cargo", "clippy"] :=
  ⟨rfl, rfl, rfl, rfl, rfl, rfl, rfl⟩

/-- C7 counterexample: for a format request the identifier placed right
after the docker wrapper is the fixed string `rustfmt`, which is none of
the three channel-selected identifiers — so the identifier is not selected
by the Channel for every request. -/
theorem c7_format_image_counterexample :
    (Sandbox.format_command ⟨"in", "out"⟩ false)[
        (Sandbox.docker_command ⟨"in", "out"⟩ false).length]? = some "rustfmt"
  ∧ "rustfmt" ≠ Channel.container_name Channel.Stable
  ∧ "rustfmt" ≠ Channel.container_name Channel.Beta
  ∧ "rustfmt" ≠ Channel.container_name Channel.Nightly :=
  ⟨rfl, by decide, by decide, by decide⟩

/-- C8: a compile request's inner toolchain command is always
`cargo rustc ...` (never a test run, whatever the test flag), while an
execute request's inner command is `cargo test ...` exactly when the test
flag is set and `cargo run ...` otherwise. -/
theorem c8_compile_never_test_run (s : Sandbox) (fbp : Bool)
    (target : CompileTarget) (channel : Channel) (mode : Mode) (tests : Bool) :
    s.compile_command fbp target channel mode tests =
      s.docker_command fbp ++ channel.container_name ::
        build_execution_command (some target) mode tests
  ∧ (build_execution_command (some target) mode tests)[0]? = some "cargo"
  ∧ (build_execution_command (some target) mode tests)[1]? = some "rustc"
  ∧ "test" ∉ build_execution_command (some target) mode tests
  ∧ s.execute_command fbp channel mode tests =
      s.docker_command fbp ++ channel.container_name ::
        build_execution_command none mode tests
  ∧ (build_execution_command none mode true)[1]? = some "test"
  ∧ (build_execution_command none mode false)[1]? = some "run" := by
  cases target <;> cases mode <;> cases tests <;>
    exact ⟨rfl, by decide, by decide, by decide, rfl, by decide, by decide⟩

/-- C9: the inner command of a compile or execute request contains the
optimization flag `--release` exactly when the mode is Release, and the
Release command is the Debug command with only that flag inserted after
the cargo subcommand. -/
theorem c9_release_flag_iff (s : Sandbox) (fbp : Bool) (channel : Channel)
    (targetOpt : Option CompileTarget) (mode : Mode) (tests : Bool) :
    ("--release" ∈ build_execution_command targetOpt mode tests ↔ mode = Mode.Release)
  ∧ build_execution_command targetOpt Mode.Release tests =
      (build_execution_command targetOpt Mode.Debug tests).take 2
        ++ "--release" :: (build_execution_command targetOpt Mode.Debug tests).drop 2
  ∧ (∀ target, s.compile_command fbp target channel mode tests =
      s.docker_command fbp ++ channel.container_name ::
        build_execution_command (some target) mode tests)
  ∧ s.execute_command fbp channel mode tests =
      s.docker_command fbp ++ channel.container_name ::
        build_execution_command none mode tests := by
  refine ⟨?_, ?_, fun _ => rfl, rfl⟩
  · rcases targetOpt with _ | t
    · cases mode <;> cases tests <;> decide
    · cases t <;> cases mode <;> cases tests <;> decide
  · rcases targetOpt with _ | t
    · cases tests <;> decide
    · cases t <;> cases tests <;> decide

end Playground

namespace Playground

/-- C2 counterexample: a compile request whose process starts and exits
with a non-zero status, yet the operation returns an error (the captured
stdout bytes are not valid UTF-8), refuting the claim that a started
process with a non-zero exit never yields an error. -/
theorem c2_nonzero_exit_counterexample :
    World.run ⟨true, fun _ => some ⟨false, ByteStream.invalid, ByteStream.text ""⟩,
        fun _ => FsEntry.notFound⟩
      (Sandbox.compile_command ⟨"in", "out"⟩ false CompileTarget.Assembly
        Channel.Stable Mode.Debug false)
      = some ⟨false, ByteStream.invalid, ByteStream.text ""⟩
  ∧ Sandbox.compile ⟨"in", "out"⟩ false
      ⟨true, fun _ => some ⟨false, ByteStream.invalid, ByteStream.text ""⟩,
       fun _ => FsEntry.notFound⟩
      ⟨CompileTarget.Assembly, Channel.Stable, Mode.Debug, false, ""⟩
      = Except.error Error.OutputNotUtf8 := ⟨rfl, rfl⟩

/-- C2 (corrected claim): for every operation, when the process starts and
the remaining extraction steps (artifact read and stdout/stderr decoding)
succeed, a non-zero exit status is not an error — the operation returns a
response whose success flag mirrors the exit status; and the typed
`UnableToExecuteCompiler` (InvocationError) is returned only when the
process cannot be started at all. -/
theorem c2_nonzero_exit_in_success_flag (s : Sandbox) (fbp : Bool) (w : World)
    (out : ProcessOutput) (so se : String)
    (hw : w.write_ok = true)
    (hso : vec_to_str out.stdout = Except.ok so)
    (hse : vec_to_str out.stderr = Except.ok se) :
    (∀ req : CompileRequest, ∀ oc,
      w.run (s.compile_command fbp req.target req.channel req.mode req.tests) = some out →
      read w.fs (s.output_dir ++ "/" ++ artifact_filename req.target) = Except.ok oc →
      s.compile fbp w req = Except.ok ⟨out.status_success, oc.getD "", so, se⟩)
  ∧ (∀ req : ExecuteRequest,
      w.run (s.execute_command fbp req.channel req.mode req.tests) = some out →
      s.execute fbp w req = Except.ok ⟨out.status_success, so, se⟩)
  ∧ (∀ req : FormatRequest, ∀ c,
      w.run (s.format_command fbp) = some out →
      read w.fs s.input_file = Except.ok (some c) →
      s.format fbp w req = Except.ok ⟨out.status_success, c, so, se⟩)
  ∧ (∀ req : ClippyRequest,
      w.run (s.clippy_command fbp) = some out →
      s.clippy fbp w req = Except.ok ⟨out.status_success, so, se⟩)
  ∧ (∀ req : CompileRequest,
      s.compile fbp w req = Except.error Error.UnableToExecuteCompiler →
      w.run (s.compile_command fbp req.target req.channel req.mode req.tests) = none)
  ∧ (∀ req : ExecuteRequest,
      s.execute fbp w req = Except.error Error.UnableToExecuteCompiler →
      w.run (s.execute_command fbp req.channel req.mode req.tests) = none)
  ∧ (∀ req : FormatRequest,
      s.format fbp w req = Except.error Error.UnableToExecuteCompiler →
      w.run (s.format_command fbp) = none)
  ∧ (∀ req : ClippyRequest,
      s.clippy fbp w req = Except.error Error.UnableToExecuteCompiler →
      w.run (s.clippy_command fbp) = none) := by
  refine ⟨?_, ?_, ?_, ?_, ?_, ?_, ?_, ?_⟩
  · intro req oc hrun hread
    simp [compile_eq s fbp w req out hw hrun, hread, hso, hse]
  · intro req hrun
    simp [execute_eq s fbp w req out hw hrun, hso, hse]
  · intro req c hrun hread
    simp [format_eq s fbp w req out hw hrun, hread, hso, hse]
  · intro req hrun
    simp [clippy_eq s fbp w req out hw hrun, hso, hse]
  · intro req h
    rcases hrun : w.run (s.compile_command fbp req.target req.channel req.mode req.tests)
      with _ | o
    · rfl
    · exfalso
      rw [compile_eq s fbp w req o hw hrun] at h
      rcases hread : read w.fs (s.output_dir ++ "/" ++ artifact_filename req.target)
        with e | oc
      · rw [hread] at h
        simp at h
        subst h
        exact read_ne_utec _ _ hread
      · rw [hread] at h
        rcases hsoo : vec_to_str o.stdout with e | so2
        · rw [hsoo] at h
          simp at h
          subst h
          exact vec_to_str_ne_utec _ hsoo
        · rw [hsoo] at h
          rcases hsee : vec_to_str o.stderr with e | se2
          · rw [hsee] at h
            simp at h
            subst h
            exact vec_to_str_ne_utec _ hsee
          · rw [hsee] at h
            simp at h
  · intro req h
    rcases hrun : w.run (s.execute_command fbp req.channel req.mode req.tests) with _ | o
    · rfl
    · exfalso
      rw [execute_eq s fbp w req o hw hrun] at h
      rcases hsoo : vec_to_str o.stdout with e | so2
      · rw [hsoo] at h
        simp at h
        subst h
        exact vec_to_str_ne_utec _ hsoo
      · rw [hsoo] at h
        rcases hsee : vec_to_str o.stderr with e | se2
        · rw [hsee] at h
          simp at h
          subst h
          exact vec_to_str_ne_utec _ hsee
        · rw [hsee] at h
          simp at h
  · intro req h
    rcases hrun : w.run (s.format_command fbp) with _ | o
    · rfl
    · exfalso
      rw [format_eq s fbp w req o hw hrun] at h
      rcases hread : read w.fs s.input_file with e | oc
      · rw [hread] at h
        simp at h
        subst h
        exact read_ne_utec _ _ hread
      · rw [hread] at h
        rcases oc with _ | c
        · simp at h
        · rcases hsoo : vec_to_str o.stdout with e | so2
          · rw [hsoo] at h
            simp at h
            subst h
            exact vec_to_str_ne_utec _ hsoo
          · rw [hsoo] at h
            rcases hsee : vec_to_str o.stderr with e | se2
            · rw [hsee] at h
              simp at h
              subst h
              exact vec_to_str_ne_utec _ hsee
            · rw [hsee] at h
              simp at h
  · intro req h
    rcases hrun : w.run (s.clippy_command fbp) with _ | o
    · rfl
    · exfalso
      rw [clippy_eq s fbp w req o hw hrun] at h
      rcases hsoo : vec_to_str o.stdout with e | so2
      · rw [hsoo] at h
        simp at h
        subst h
        exact vec_to_str_ne_utec _ hsoo
      · rw [hsoo] at h
        rcases hsee : vec_to_str o.stderr with e | se2
        · rw [hsee] at h
          simp at h
          subst h
          exact vec_to_str_ne_utec _ hsee
        · rw [hsee] at h
          simp at h

/-- C2 witness: the corrected claim at a concrete input — a formatter-like
world whose process exits with a non-zero status yields a successful
response with success flag false. -/
theorem c2_nonzero_exit_witness :
    Sandbox.compile ⟨"i", "o"⟩ false
      ⟨true, fun _ => some ⟨false, ByteStream.text "so", ByteStream.text "se"⟩,
       fun _ => FsEntry.notFound⟩
      ⟨CompileTarget.Assembly, Channel.Stable, Mode.Debug, false, ""⟩
      = Except.ok ⟨false, "", "so", "se"⟩ :=
  (c2_nonzero_exit_in_success_flag ⟨"i", "o"⟩ false
      ⟨true, fun _ => some ⟨false, ByteStream.text "so", ByteStream.text "se"⟩,
       fun _ => FsEntry.notFound⟩
      ⟨false, ByteStream.text "so", ByteStream.text "se"⟩ "so" "se" rfl rfl rfl).1
    ⟨CompileTarget.Assembly, Channel.Stable, Mode.Debug, false, ""⟩ none rfl rfl

end Playground

namespace Playground

/-- C4 counterexample: a compile request whose output artifact bytes are
not valid text makes the operation return `UnableToReadOutput` (the typed
ReadError, via `read_to_string` failing with `InvalidData`), not the typed
EncodingError `OutputNotUtf8` — refuting the claim that every invalid
captured byte stream yields the EncodingError. -/
theorem c4_artifact_encoding_counterexample :
    Sandbox.compile ⟨"in", "out"⟩ false
      ⟨true, fun _ => some ⟨true, ByteStream.text "o", ByteStream.text "e"⟩,
       fun _ => FsEntry.file ByteStream.invalid⟩
      ⟨CompileTarget.Assembly, Channel.Stable, Mode.Debug, false, ""⟩
      = Except.error Error.UnableToReadOutput
  ∧ Error.UnableToReadOutput ≠ Error.OutputNotUtf8 := ⟨rfl, by decide⟩

/-- C4 (corrected claim): for every operation, captured stdout or stderr
bytes that are not valid text yield the typed EncodingError
`OutputNotUtf8`; an output artifact (or the format input file) whose bytes
are not valid text yields the typed ReadError `UnableToReadOutput`
instead; and in every such case the operation returns an error — never a
truncated or lossy success response. -/
theorem c4_invalid_text_never_lossy (s : Sandbox) (fbp : Bool) (w : World)
    (out : ProcessOutput) (hw : w.write_ok = true) :
    (∀ req : CompileRequest, ∀ oc,
      w.run (s.compile_command fbp req.target req.channel req.mode req.tests) = some out →
      read w.fs (s.output_dir ++ "/" ++ artifact_filename req.target) = Except.ok oc →
      out.stdout = ByteStream.invalid →
      s.compile fbp w req = Except.error Error.OutputNotUtf8)
  ∧ (∀ req : CompileRequest, ∀ oc, ∀ so,
      w.run (s.compile_command fbp req.target req.channel req.mode req.tests) = some out →
      read w.fs (s.output_dir ++ "/" ++ artifact_filename req.target) = Except.ok oc →
      out.stdout = ByteStream.text so → out.stderr = ByteStream.invalid →
      s.compile fbp w req = Except.error Error.OutputNotUtf8)
  ∧ (∀ req : CompileRequest,
      w.run (s.compile_command fbp req.target req.channel req.mode req.tests) = some out →
      w.fs (s.output_dir ++ "/" ++ artifact_filename req.target)
        = FsEntry.file ByteStream.invalid →
      s.compile fbp w req = Except.error Error.UnableToReadOutput)
  ∧ (∀ req : CompileRequest,
      w.run (s.compile_command fbp req.target req.channel req.mode req.tests) = some out →
      (out.stdout = ByteStream.invalid ∨ out.stderr = ByteStream.invalid ∨
        w.fs (s.output_dir ++ "/" ++ artifact_filename req.target)
          = FsEntry.file ByteStream.invalid) →
      is_ok (s.compile fbp w req) = false)
  ∧ (∀ req : ExecuteRequest,
      w.run (s.execute_command fbp req.channel req.mode req.tests) = some out →
      out.stdout = ByteStream.invalid →
      s.execute fbp w req = Except.error Error.OutputNotUtf8)
  ∧ (∀ req : ExecuteRequest, ∀ so,
      w.run (s.execute_command fbp req.channel req.mode req.tests) = some out →
      out.stdout = ByteStream.text so → out.stderr = ByteStream.invalid →
      s.execute fbp w req = Except.error Error.OutputNotUtf8)
  ∧ (∀ req : ExecuteRequest,
      w.run (s.execute_command fbp req.channel req.mode req.tests) = some out →
      (out.stdout = ByteStream.invalid ∨ out.stderr = ByteStream.invalid) →
      is_ok (s.execute fbp w req) = false)
  ∧ (∀ req : FormatRequest, ∀ c,
      w.run (s.format_command fbp) = some out →
      w.fs s.input_file = FsEntry.file (ByteStream.text c) →
      out.stdout = ByteStream.invalid →
      s.format fbp w req = Except.error Error.OutputNotUtf8)
  ∧ (∀ req : FormatRequest, ∀ c, ∀ so,
      w.run (s.format_command fbp) = some out →
      w.fs s.input_file = FsEntry.file (ByteStream.text c) →
      out.stdout = ByteStream.text so → out.stderr = ByteStream.invalid →
      s.format fbp w req = Except.error Error.OutputNotUtf8)
  ∧ (∀ req : FormatRequest,
      w.run (s.format_command fbp) = some out →
      w.fs s.input_file = FsEntry.file ByteStream.invalid →
      s.format fbp w req = Except.error Error.UnableToReadOutput)
  ∧ (∀ req : FormatRequest,
      w.run (s.format_command fbp) = some out →
      (out.stdout = ByteStream.invalid ∨ out.stderr = ByteStream.invalid ∨
        w.fs s.input_file = FsEntry.file ByteStream.invalid) →
      is_ok (s.format fbp w req) = false)
  ∧ (∀ req : ClippyRequest,
      w.run (s.clippy_command fbp) = some out →
      out.stdout = ByteStream.invalid →
      s.clippy fbp w req = Except.error Error.OutputNotUtf8)
  ∧ (∀ req : ClippyRequest, ∀ so,
      w.run (s.clippy_command fbp) = some out →
      out.stdout = ByteStream.text so → out.stderr = ByteStream.invalid →
      s.clippy fbp w req = Except.error Error.OutputNotUtf8)
  ∧ (∀ req : ClippyRequest,
      w.run (s.clippy_command fbp) = some out →
      (out.stdout = ByteStream.invalid ∨ out.stderr = ByteStream.invalid) →
      is_ok (s.clippy fbp w req) = false) := by
  refine ⟨?_, ?_, ?_, ?_, ?_, ?_, ?_, ?_, ?_, ?_, ?_, ?_, ?_, ?_⟩
  · intro req oc hrun hread hin
    simp [compile_eq s fbp w req out hw hrun, hread, vec_to_str, hin]
  · intro req oc so hrun hread hin hse
    simp [compile_eq s fbp w req out hw hrun, hread, vec_to_str, hin, hse]
  · intro req hrun hfs
    simp [compile_eq s fbp w req out hw hrun, read, hfs]
  · intro req hrun hbad
    rw [compile_eq s fbp w req out hw hrun]
    rcases hread : read w.fs (s.output_dir ++ "/" ++ artifact_filename req.target)
      with e | oc
    · simp [is_ok]
    · rcases hsoo : vec_to_str out.stdout with e | so2
      · simp [is_ok]
      · rcases hsee : vec_to_str out.stderr with e | se2
        · simp [is_ok]
        · exfalso
          rcases hbad with hb | hb | hb
          · rw [hb] at hsoo
            simp [vec_to_str] at hsoo
          · rw [hb] at hsee
            simp [vec_to_str] at hsee
          · unfold read at hread
            rw [hb] at hread
            simp at hread
  · intro req hrun hin
    simp [execute_eq s fbp w req out hw hrun, vec_to_str, hin]
  · intro req so hrun hin hse
    simp [execute_eq s fbp w req out hw hrun, vec_to_str, hin, hse]
  · intro req hrun hbad
    rw [execute_eq s fbp w req out hw hrun]
    rcases hsoo : vec_to_str out.stdout with e | so2
    · simp [is_ok]
    · rcases hsee : vec_to_str out.stderr with e | se2
      · simp [is_ok]
      · exfalso
        rcases hbad with hb | hb
        · rw [hb] at hsoo
          simp [vec_to_str] at hsoo
        · rw [hb] at hsee
          simp [vec_to_str] at hsee
  · intro req c hrun hfs hin
    simp [format_eq s fbp w req out hw hrun, read, hfs, vec_to_str, hin]
  · intro req c so hrun hfs hin hse
    simp [format_eq s fbp w req out hw hrun, read, hfs, vec_to_str, hin, hse]
  · intro req hrun hfs
    simp [format_eq s fbp w req out hw hrun, read, hfs]
  · intro req hrun hbad
    rw [format_eq s fbp w req out hw hrun]
    rcases hread : read w.fs s.input_file with e | oc
    · simp [is_ok]
    · rcases oc with _ | c
      · simp [is_ok]
      · rcases hsoo : vec_to_str out.stdout with e | so2
        · simp [is_ok]
        · rcases hsee : vec_to_str out.stderr with e | se2
          · simp [is_ok]
          · exfalso
            rcases hbad with hb | hb | hb
            · rw [hb] at hsoo
              simp [vec_to_str] at hsoo
            · rw [hb] at hsee
              simp [vec_to_str] at hsee
            · unfold read at hread
              rw [hb] at hread
              simp at hread
  · intro req hrun hin
    simp [clippy_eq s fbp w req out hw hrun, vec_to_str, hin]
  · intro req so hrun hin hse
    simp [clippy_eq s fbp w req out hw hrun, vec_to_str, hin, hse]
  · intro req hrun hbad
    rw [clippy_eq s fbp w req out hw hrun]
    rcases hsoo : vec_to_str out.stdout with e | so2
    · simp [is_ok]
    · rcases hsee : vec_to_str out.stderr with e | se2
      · simp [is_ok]
      · exfalso
        rcases hbad with hb | hb
        · rw [hb] at hsoo
          simp [vec_to_str] at hsoo
        · rw [hb] at hsee
          simp [vec_to_str] at hsee

/-- C4 witness: the corrected claim at a concrete input — invalid stdout
bytes on a compile request yield the typed `OutputNotUtf8`. -/
theorem c4_invalid_text_witness :
    Sandbox.compile ⟨"i", "o"⟩ false
      ⟨true, fun _ => some ⟨true, ByteStream.invalid, ByteStream.text "e"⟩,
       fun _ => FsEntry.notFound⟩
      ⟨CompileTarget.Assembly, Channel.Stable, Mode.Debug, false, ""⟩
      = Except.error Error.OutputNotUtf8 :=
  (c4_invalid_text_never_lossy ⟨"i", "o"⟩ false
      ⟨true, fun _ => some ⟨true, ByteStream.invalid, ByteStream.text "e"⟩,
       fun _ => FsEntry.notFound⟩
      ⟨true, ByteStream.invalid, ByteStream.text "e"⟩ rfl).1
    ⟨CompileTarget.Assembly, Channel.Stable, Mode.Debug, false, ""⟩ none rfl rfl rfl

end Playground

namespace Playground

/-- C5: for a compile request whose process ran and whose stdout/stderr
decode, absence of the expected artifact file in the output location is
not an error — the response's artifact field is the empty string and the
call succeeds; an I/O failure other than not-found when reading the
artifact yields the typed ReadError `UnableToReadOutput`. -/
theorem c5_missing_artifact_not_error (s : Sandbox) (fbp : Bool) (w : World)
    (req : CompileRequest) (out : ProcessOutput) (so se : String)
    (hw : w.write_ok = true)
    (hrun : w.run (s.compile_command fbp req.target req.channel req.mode req.tests)
      = some out)
    (hso : out.stdout = ByteStream.text so) (hse : out.stderr = ByteStream.text se) :
    (w.fs (s.output_dir ++ "/" ++ artifact_filename req.target) = FsEntry.notFound →
      s.compile fbp w req = Except.ok ⟨out.status_success, "", so, se⟩)
  ∧ (w.fs (s.output_dir ++ "/" ++ artifact_filename req.target) = FsEntry.otherIoError →
      s.compile fbp w req = Except.error Error.UnableToReadOutput) := by
  constructor
  · intro hfs
    simp [compile_eq s fbp w req out hw hrun, read, hfs, vec_to_str, hso, hse]
  · intro hfs
    simp [compile_eq s fbp w req out hw hrun, read, hfs]

/-- C5 witness: the claim at concrete inputs — one world where the
artifact is absent (success with empty artifact) and one where reading it
fails with a non-not-found I/O error (typed ReadError). -/
theorem c5_missing_artifact_witness :
    Sandbox.compile ⟨"i", "o"⟩ false
      ⟨true, fun _ => some ⟨true, ByteStream.text "so", ByteStream.text "se"⟩,
       fun _ => FsEntry.notFound⟩
      ⟨CompileTarget.Assembly, Channel.Stable, Mode.Debug, false, ""⟩
      = Except.ok ⟨true, "", "so", "se"⟩
  ∧ Sandbox.compile ⟨"i", "o"⟩ false
      ⟨true, fun _ => some ⟨true, ByteStream.text "so", ByteStream.text "se"⟩,
       fun _ => FsEntry.otherIoError⟩
      ⟨CompileTarget.Assembly, Channel.Stable, Mode.Debug, false, ""⟩
      = Except.error Error.UnableToReadOutput :=
  ⟨(c5_missing_artifact_not_error ⟨"i", "o"⟩ false
      ⟨true, fun _ => some ⟨true, ByteStream.text "so", ByteStream.text "se"⟩,
       fun _ => FsEntry.notFound⟩
      ⟨CompileTarget.Assembly, Channel.Stable, Mode.Debug, false, ""⟩
      ⟨true, ByteStream.text "so", ByteStream.text "se"⟩ "so" "se"
      rfl rfl rfl rfl).1 rfl,
   (c5_missing_artifact_not_error ⟨"i", "o"⟩ false
      ⟨true, fun _ => some ⟨true, ByteStream.text "so", ByteStream.text "se"⟩,
       fun _ => FsEntry.otherIoError⟩
      ⟨CompileTarget.Assembly, Channel.Stable, Mode.Debug, false, ""⟩
      ⟨true, ByteStream.text "so", ByteStream.text "se"⟩ "so" "se"
      rfl rfl rfl rfl).2 rfl⟩

/-- C6: for a format request whose process ran and whose stdout/stderr
decode, the returned artifact is the content of the workspace input file
itself after the formatter runs; if that input file is absent at read time
the operation fails with the typed `OutputMissing` rather than returning
an empty artifact. -/
theorem c6_format_artifact_is_input_file (s : Sandbox) (fbp : Bool) (w : World)
    (req : FormatRequest) (out : ProcessOutput) (so se : String)
    (hw : w.write_ok = true)
    (hrun : w.run (s.format_command fbp) = some out)
    (hso : out.stdout = ByteStream.text so) (hse : out.stderr = ByteStream.text se) :
    (∀ c, w.fs s.input_file = FsEntry.file (ByteStream.text c) →
      s.format fbp w req = Except.ok ⟨out.status_success, c, so, se⟩)
  ∧ (w.fs s.input_file = FsEntry.notFound →
      s.format fbp w req = Except.error Error.OutputMissing) := by
  constructor
  · intro c hfs
    simp [format_eq s fbp w req out hw hrun, read, hfs, vec_to_str, hso, hse]
  · intro hfs
    simp [format_eq s fbp w req out hw hrun, read, hfs]

/-- C6 witness: the claim at concrete inputs — a world where the input
file holds formatted text (returned as the artifact) and one where it is
absent (typed `OutputMissing`). -/
theorem c6_format_artifact_witness :
    Sandbox.format ⟨"i", "o"⟩ false
      ⟨true, fun _ => some ⟨true, ByteStream.text "so", ByteStream.text "se"⟩,
       fun _ => FsEntry.file (ByteStream.text "fn main() {}")⟩
      ⟨"fn main(){}"⟩
      = Except.ok ⟨true, "fn main() {}", "so", "se"⟩
  ∧ Sandbox.format ⟨"i", "o"⟩ false
      ⟨true, fun _ => some ⟨true, ByteStream.text "so", ByteStream.text "se"⟩,
       fun _ => FsEntry.notFound⟩
      ⟨"fn main(){}"⟩
      = Except.error Error.OutputMissing :=
  ⟨(c6_format_artifact_is_input_file ⟨"i", "o"⟩ false
      ⟨true, fun _ => some ⟨true, ByteStream.text "so", ByteStream.text "se"⟩,
       fun _ => FsEntry.file (ByteStream.text "fn main() {}")⟩
      ⟨"fn main(){}"⟩ ⟨true, ByteStream.text "so", ByteStream.text "se"⟩ "so" "se"
      rfl rfl rfl rfl).1 "fn main() {}" rfl,
   (c6_format_artifact_is_input_file ⟨"i", "o"⟩ false
      ⟨true, fun _ => some ⟨true, ByteStream.text "so", ByteStream.text "se"⟩,
       fun _ => FsEntry.notFound⟩
      ⟨"fn main(){}"⟩ ⟨true, ByteStream.text "so", ByteStream.text "se"⟩ "so" "se"
      rfl rfl rfl rfl).2 rfl⟩

/-- C10: for a format request in which writing the source, running the
process and reading the input file all succeed, the response carries the
artifact text read back from the input file even when the success flag is
false — a failed formatter run still yields a success response whose
artifact is the current input-file content, not an error. -/
theorem c10_failed_format_still_returns_artifact (s : Sandbox) (fbp : Bool)
    (w : World) (req : FormatRequest) (out : ProcessOutput) (c so se : String)
    (hw : w.write_ok = true)
    (hrun : w.run (s.format_command fbp) = some out)
    (hfs : w.fs s.input_file = FsEntry.file (ByteStream.text c))
    (hso : out.stdout = ByteStream.text so) (hse : out.stderr = ByteStream.text se) :
    s.format fbp w req = Except.ok ⟨out.status_success, c, so, se⟩
  ∧ (out.status_success = false →
      s.format fbp w req
        = Except.ok { success := false, code := c, stdout := so, stderr := se }) := by
  have h : s.format fbp w req = Except.ok ⟨out.status_success, c, so, se⟩ := by
    simp [format_eq s fbp w req out hw hrun, read, hfs, vec_to_str, hso, hse]
  exact ⟨h, fun hfail => by rw [h, hfail]⟩

/-- C10 witness: the claim at a concrete input — the formatter exits with
a non-zero status, yet the response is a success carrying the current
input-file content. -/
theorem c10_failed_format_witness :
    Sandbox.format ⟨"i", "o"⟩ false
      ⟨true, fun _ => some ⟨false, ByteStream.text "", ByteStream.text "err"⟩,
       fun _ => FsEntry.file (ByteStream.text "fn foo() {}")⟩
      ⟨"fn foo () {}"⟩
      = Except.ok ⟨false, "fn foo() {}", "", "err"⟩ :=
  (c10_failed_format_still_returns_artifact ⟨"i", "o"⟩ false
      ⟨true, fun _ => some ⟨false, ByteStream.text "", ByteStream.text "err"⟩,
       fun _ => FsEntry.file (ByteStream.text "fn foo() {}")⟩
      ⟨"fn foo () {}"⟩ ⟨false, ByteStream.text "", ByteStream.text "err"⟩
      "fn foo() {}" "" "err" rfl rfl rfl rfl rfl).2 rfl

end Playground
